import Mathlib

/-!
Shallow embedding of the powerkit repository (src/lib/powerkit.cpp and
src/lib/power.cpp) in Lean 4, together with theorems settling the spec
claims about the device registry, the aggregate battery queries, the
level-to-edge state tracker, the backend capability fallback, the action
surface and the inhibitor ledger.

Conventions of the embedding:
* D-Bus state that the code merely reads (service reachability, property
  values, the backend device list, call results) is bundled into explicit
  environment records passed to each modelled function.
* `QMap` containers become association lists `List (key × value)` with
  insert/remove/lookup operations mirroring QMap semantics (unique keys,
  upsert on assignment).
* C++ `double` arithmetic on battery percentages is modelled exactly over
  `ℚ`, except that a division is modelled as `Option ℚ`: `none` stands for
  the IEEE result `0.0/0 = NaN` of a division whose divisor is zero, which
  rational arithmetic cannot represent (Lean's total `/` would silently
  return `0` there, misrepresenting the C++ behaviour).
-/

namespace PowerKit

/-- Cached attributes of one power-supply `Device`
(src/lib/powerkit.cpp uses them via `device.value()->isBattery` etc.;
the `Device` class itself lives outside src/, its fields are those the
registry reads). -/
structure Device where
  isBattery : Bool
  isPresent : Bool
  nativePath : String
  percentage : ℚ
  timeToEmpty : Int
  timeToFull : Int
  deriving Repr, DecidableEq

/-- The filter `isBattery && isPresent && !nativePath.isEmpty` used by
`BatteryLeft`, `TimeToEmpty` and `TimeToFull` (powerkit.cpp:580-582,
618-620, 633-635). -/
def qualifying (d : Device) : Bool :=
  d.isBattery && d.isPresent && !d.nativePath.isEmpty

/-- `PowerKit::BatteryLeft` (powerkit.cpp:572-589): sums `percentage` over
qualifying devices, counts them, and returns `batteryLeft/batteries`
UNGUARDED.  The division is over C++ `double`s, so when `batteries == 0`
the source computes `0.0/0 = NaN`; `none` models that NaN, `some q` the
exact quotient otherwise.  The optional `UpdateBattery()` sweep performed
first merely refreshes the percentages being summed; the argument list is
the device set at the moment of the arithmetic. -/
def BatteryLeft (devices : List Device) : Option ℚ :=
  let batteryLeft : ℚ := (devices.filter qualifying).foldl (fun acc d => acc + d.percentage) 0
  let batteries : Nat := (devices.filter qualifying).length
  if batteries = 0 then none else some (batteryLeft / (batteries : ℚ))

/-- `PowerKit::HasBattery` (powerkit.cpp:601-609): true iff some tracked
device has `isBattery` set — `isPresent` and `nativePath` are NOT
consulted. -/
def HasBattery (devices : List Device) : Bool :=
  devices.any (fun d => d.isBattery)

/-- `PowerKit::TimeToEmpty` (powerkit.cpp:611-624): sum of `timeToEmpty`
over qualifying devices. -/
def TimeToEmpty (devices : List Device) : Int :=
  (devices.filter qualifying).foldl (fun acc d => acc + d.timeToEmpty) 0

/-- `PowerKit::TimeToFull` (powerkit.cpp:626-639): sum of `timeToFull`
over qualifying devices. -/
def TimeToFull (devices : List Device) : Int :=
  (devices.filter qualifying).foldl (fun acc d => acc + d.timeToFull) 0

/-- The edge events (Qt signals) emitted by `PowerKit::deviceChanged`
(powerkit.cpp:334-355).  `Power::deviceChanged` (power.cpp:247-268) is the
same machine with the signals named `closedLid`/`openedLid`/
`switchedToBattery`/`switchedToAC`/`updatedDevices`. -/
inductive Event where
  | LidClosed
  | LidOpened
  | SwitchedToBattery
  | SwitchedToAC
  | UpdatedDevices
  deriving Repr, DecidableEq

/-- The three `was*` member caches, initialised to `false` in the
constructor (powerkit.cpp:22-24, power.cpp:23-25). -/
structure TrackerState where
  wasDocked : Bool
  wasLidClosed : Bool
  wasOnBattery : Bool
  deriving Repr, DecidableEq

/-- The backend values observed during one `deviceChanged` call:
what `LidIsClosed()`, `OnBattery()` and `IsDocked()` return for its
duration.  The source never reads `IsDocked()` inside `deviceChanged`;
`isDocked` is carried here only so that the claim about `wasDocked`
tracking the observed value can be stated. -/
structure Observation where
  lidIsClosed : Bool
  onBattery : Bool
  isDocked : Bool
  deriving Repr, DecidableEq

/-- `PowerKit::deviceChanged` (powerkit.cpp:334-355): compare each level
fact against its cache, emit at most one edge event per pair, update the
cache, and finish with `UpdatedDevices`.  `wasDocked` is not touched by
the source (no assignment to it exists outside the constructor). -/
def deviceChanged (s : TrackerState) (o : Observation) : TrackerState × List Event :=
  let lidEvents : List Event :=
    if s.wasLidClosed != o.lidIsClosed then
      if !s.wasLidClosed && o.lidIsClosed then [Event.LidClosed]
      else if s.wasLidClosed && !o.lidIsClosed then [Event.LidOpened]
      else []
    else []
  let s1 : TrackerState := { s with wasLidClosed := o.lidIsClosed }
  let battEvents : List Event :=
    if s1.wasOnBattery != o.onBattery then
      if !s1.wasOnBattery && o.onBattery then [Event.SwitchedToBattery]
      else if s1.wasOnBattery && !o.onBattery then [Event.SwitchedToAC]
      else []
    else []
  let s2 : TrackerState := { s1 with wasOnBattery := o.onBattery }
  (s2, lidEvents ++ battEvents ++ [Event.UpdatedDevices])

/-- A sequence of `deviceChanged` calls: threads the tracker state through
and concatenates the emitted events. -/
def runTracker (s : TrackerState) : List Observation → TrackerState × List Event
  | [] => (s, [])
  | o :: os =>
    let step := deviceChanged s o
    let rest := runTracker step.1 os
    (rest.1, step.2 ++ rest.2)

/-- Number of `false → true` transitions in a boolean trace, relative to a
previous value. -/
def risingEdges (prev : Bool) : List Bool → Nat
  | [] => 0
  | b :: bs => (if !prev && b then 1 else 0) + risingEdges b bs

/-- Number of `true → false` transitions in a boolean trace, relative to a
previous value. -/
def fallingEdges (prev : Bool) : List Bool → Nat
  | [] => 0
  | b :: bs => (if prev && !b then 1 else 0) + fallingEdges b bs

/-- The backend enum values of PKBackend used by the fallback chains
(powerkit.h, consumed at powerkit.cpp:59-77). -/
inductive PKBackend where
  | PKConsoleKit
  | PKLogind
  | PKUPower
  deriving Repr, DecidableEq

/-- The capability-query methods of PKMethod (powerkit.cpp:78-102). -/
inductive PKMethod where
  | PKCanRestart
  | PKCanPowerOff
  | PKCanSuspend
  | PKCanHibernate
  | PKCanHybridSleep
  | PKSuspendAllowed
  | PKHibernateAllowed
  deriving Repr, DecidableEq

/-- The action methods of PKAction (powerkit.cpp:136-154). -/
inductive PKAction where
  | PKRestartAction
  | PKPowerOffAction
  | PKSuspendAction
  | PKHibernateAction
  | PKHybridSleepAction
  deriving Repr, DecidableEq

/-- Modelled from the spec: the PK_NO_BACKEND result string returned when
no backend is reachable (its literal value lives in powerkit.h, outside
src/; only its identity matters). -/
def PK_NO_BACKEND : String := "no backend"

/-- Modelled from the spec: the DBUS_FAILED_CONN result string returned by
executeAction when the interface handle is invalid (literal value in
powerkit.h, outside src/). -/
def DBUS_FAILED_CONN : String := "failed dbus connection"

/-- The D-Bus world as seen by one PowerKit call: which backend services
answer (`availableService`, powerkit.cpp:43-53), what each capability
query returns (`availableAction`, powerkit.cpp:55-111, with the reply
decoding of lines 106-110 folded into one boolean), whether the ad-hoc
interface built inside `executeAction` is valid, and the error message of
an executed action call. -/
structure BusEnv where
  hasLogind : Bool
  hasConsoleKit : Bool
  hasUPower : Bool
  availRes : PKMethod → PKBackend → Bool
  ifaceValid : PKBackend → Bool
  callErr : PKAction → PKBackend → String

/-- `PowerKit::availableAction` (powerkit.cpp:55-111) for the three real
backends: the decoded boolean reply of the capability method. -/
def availableAction (env : BusEnv) (method : PKMethod) (backend : PKBackend) : Bool :=
  env.availRes method backend

/-- `PowerKit::executeAction` (powerkit.cpp:113-164).  Returns the reply
error message and a record of the D-Bus action call actually made (`none`
when the interface was invalid and no call was attempted).  Note the
function checks only interface validity — it never consults any
capability query. -/
def executeAction (env : BusEnv) (action : PKAction) (backend : PKBackend) :
    String × Option (PKAction × PKBackend) :=
  if env.ifaceValid backend then (env.callErr action backend, some (action, backend))
  else (DBUS_FAILED_CONN, none)

/-- `PowerKit::CanRestart` (powerkit.cpp:439-447): logind, else
ConsoleKit, else false.  UPower is never consulted. -/
def CanRestart (env : BusEnv) : Bool :=
  if env.hasLogind then availableAction env .PKCanRestart .PKLogind
  else if env.hasConsoleKit then availableAction env .PKCanRestart .PKConsoleKit
  else false

/-- `PowerKit::CanPowerOff` (powerkit.cpp:449-457). -/
def CanPowerOff (env : BusEnv) : Bool :=
  if env.hasLogind then availableAction env .PKCanPowerOff .PKLogind
  else if env.hasConsoleKit then availableAction env .PKCanPowerOff .PKConsoleKit
  else false

/-- `PowerKit::CanSuspend` (powerkit.cpp:459-469): logind, else
ConsoleKit, else UPower (SuspendAllowed), else false. -/
def CanSuspend (env : BusEnv) : Bool :=
  if env.hasLogind then availableAction env .PKCanSuspend .PKLogind
  else if env.hasConsoleKit then availableAction env .PKCanSuspend .PKConsoleKit
  else if env.hasUPower then availableAction env .PKSuspendAllowed .PKUPower
  else false

/-- `PowerKit::CanHibernate` (powerkit.cpp:471-481). -/
def CanHibernate (env : BusEnv) : Bool :=
  if env.hasLogind then availableAction env .PKCanHibernate .PKLogind
  else if env.hasConsoleKit then availableAction env .PKCanHibernate .PKConsoleKit
  else if env.hasUPower then availableAction env .PKHibernateAllowed .PKUPower
  else false

/-- `PowerKit::CanHybridSleep` (powerkit.cpp:483-491): UPower is never
consulted. -/
def CanHybridSleep (env : BusEnv) : Bool :=
  if env.hasLogind then availableAction env .PKCanHybridSleep .PKLogind
  else if env.hasConsoleKit then availableAction env .PKCanHybridSleep .PKConsoleKit
  else false

/-- `PowerKit::Restart` (powerkit.cpp:493-501): first reachable backend of
logind, ConsoleKit; no capability check appears anywhere on the path. -/
def Restart (env : BusEnv) : String × Option (PKAction × PKBackend) :=
  if env.hasLogind then executeAction env .PKRestartAction .PKLogind
  else if env.hasConsoleKit then executeAction env .PKRestartAction .PKConsoleKit
  else (PK_NO_BACKEND, none)

/-- `PowerKit::PowerOff` (powerkit.cpp:503-511). -/
def PowerOff (env : BusEnv) : String × Option (PKAction × PKBackend) :=
  if env.hasLogind then executeAction env .PKPowerOffAction .PKLogind
  else if env.hasConsoleKit then executeAction env .PKPowerOffAction .PKConsoleKit
  else (PK_NO_BACKEND, none)

/-- `PowerKit::Suspend` (powerkit.cpp:513-523): first reachable backend of
logind, ConsoleKit, UPower; `CanSuspend` is never called. -/
def Suspend (env : BusEnv) : String × Option (PKAction × PKBackend) :=
  if env.hasLogind then executeAction env .PKSuspendAction .PKLogind
  else if env.hasConsoleKit then executeAction env .PKSuspendAction .PKConsoleKit
  else if env.hasUPower then executeAction env .PKSuspendAction .PKUPower
  else (PK_NO_BACKEND, none)

/-- `PowerKit::Hibernate` (powerkit.cpp:525-535). -/
def Hibernate (env : BusEnv) : String × Option (PKAction × PKBackend) :=
  if env.hasLogind then executeAction env .PKHibernateAction .PKLogind
  else if env.hasConsoleKit then executeAction env .PKHibernateAction .PKConsoleKit
  else if env.hasUPower then executeAction env .PKHibernateAction .PKUPower
  else (PK_NO_BACKEND, none)

/-- `PowerKit::HybridSleep` (powerkit.cpp:537-545). -/
def HybridSleep (env : BusEnv) : String × Option (PKAction × PKBackend) :=
  if env.hasLogind then executeAction env .PKHybridSleepAction .PKLogind
  else if env.hasConsoleKit then executeAction env .PKHybridSleepAction .PKConsoleKit
  else (PK_NO_BACKEND, none)

/-- Events announced by the device registry: the Qt signals
`DeviceWasAdded`, `DeviceWasRemoved` and `UpdatedDevices`
(powerkit.cpp:300, 312, 329). -/
inductive RegEvent where
  | DeviceWasAdded (path : String)
  | DeviceWasRemoved (path : String)
  | UpdatedDevices
  deriving Repr, DecidableEq

/-- `devices.contains(path)` on the QMap path → Device*. -/
def mapContains (m : List (String × Device)) (k : String) : Bool :=
  m.any (fun e => e.1 == k)

/-- `devices.take(path)`: removes the entry for the key (the returned
pointer is deleted by the source; the model keeps only the map). -/
def mapTake (m : List (String × Device)) (k : String) : List (String × Device) :=
  m.filter (fun e => !(e.1 == k))

/-- The backend world seen by one registry call: UPower interface
validity, the UPower object-path root (UPOWER_PATH, literal in powerkit.h
outside src/), the device list `find()` reports (powerkit.cpp:166-193),
and the attributes a `Device` reads from its backing object when
constructed or refreshed (Modelled from the spec: Device::refresh
re-reads presence/percentage/time properties in place, spec section 4.2;
the Device class itself is outside src/). -/
structure RegistryEnv where
  upowerValid : Bool
  upowerPath : String
  backendList : List String
  fresh : String → Device

/-- The job-object path filter `path.startsWith(QString(DBUS_JOBS).arg(UPOWER_PATH))`
(powerkit.cpp:311, 325; power.cpp:228, 238 shows the pattern is
upower-path + "/jobs").  QString::startsWith is expressed as a
character-list prefix test, which is what it computes (the byte-level
String.startsWith does not reduce inside the kernel). -/
def isJobPath (env : RegistryEnv) (path : String) : Bool :=
  (env.upowerPath ++ "/jobs").data.isPrefixOf path.data

/-- `PowerKit::UpdateDevices` (powerkit.cpp:641-648): calls `update()` on
every tracked Device, re-reading its attributes from the backend. -/
def UpdateDevices (env : RegistryEnv) (devices : List (String × Device)) :
    List (String × Device) :=
  devices.map (fun e => (e.1, env.fresh e.1))

/-- `PowerKit::scan` (powerkit.cpp:286-301): for each id found on the
backend, skip it if already tracked, otherwise create a Device for it;
then `UpdateDevices()` refreshes every tracked Device, and
`UpdatedDevices` is emitted unconditionally.  (QMap key order is
irrelevant to every claim; new entries are appended.) -/
def scan (env : RegistryEnv) (devices : List (String × Device)) :
    List (String × Device) × List RegEvent :=
  let devices1 := env.backendList.foldl
    (fun acc p => if mapContains acc p then acc else acc ++ [(p, env.fresh p)]) devices
  (UpdateDevices env devices1, [RegEvent.UpdatedDevices])

/-- `PowerKit::deviceAdded(const QString&)` (powerkit.cpp:308-314):
ignored when the upower handle is invalid or the path is a job path;
otherwise `DeviceWasAdded(path)` is emitted unconditionally and `scan()`
runs. -/
def deviceAdded (env : RegistryEnv) (devices : List (String × Device)) (path : String) :
    List (String × Device) × List RegEvent :=
  if !env.upowerValid then (devices, [])
  else if isJobPath env path then (devices, [])
  else
    let s := scan env devices
    (s.1, RegEvent.DeviceWasAdded path :: s.2)

/-- `PowerKit::deviceRemoved(const QString&)` (powerkit.cpp:321-332):
ignored when the upower handle is invalid or the path is a job path; when
the path is tracked but `find()` still lists it, the handler returns
early (no destruction, no scan); when tracked and no longer listed, the
Device is destroyed, `DeviceWasRemoved` emitted and `scan()` runs; when
untracked, `scan()` runs. -/
def deviceRemoved (env : RegistryEnv) (devices : List (String × Device)) (path : String) :
    List (String × Device) × List RegEvent :=
  if !env.upowerValid then (devices, [])
  else
    let deviceExists := mapContains devices path
    if isJobPath env path then (devices, [])
    else if deviceExists then
      if env.backendList.contains path then (devices, [])
      else
        let s := scan env (mapTake devices path)
        (s.1, RegEvent.DeviceWasRemoved path :: s.2)
    else scan env devices

/-- `table.contains(cookie)` on a QMap cookie → application.  Cookies are
quint32 in the source; they are opaque, so Nat models them. -/
def tableContains (t : List (Nat × String)) (cookie : Nat) : Bool :=
  t.any (fun e => e.1 == cookie)

/-- `table[cookie] = application`: QMap operator[] assignment, an upsert
that replaces the value when the key exists (QMap keys are unique) and
inserts otherwise. -/
def tableSet : List (Nat × String) → Nat → String → List (Nat × String)
  | [], cookie, app => [(cookie, app)]
  | e :: t, cookie, app =>
    if e.1 == cookie then (e.1, app) :: t else e :: tableSet t cookie app

/-- `table.remove(cookie)`: removes every entry with the key. -/
def tableRemove (t : List (Nat × String)) (cookie : Nat) : List (Nat × String) :=
  t.filter (fun e => !(e.1 == cookie))

/-- Value stored for a cookie, if any. -/
def tableLookup (t : List (Nat × String)) (cookie : Nat) : Option String :=
  (t.find? (fun e => e.1 == cookie)).map (fun e => e.2)

/-- The two inhibitor tables, `ssInhibitors` and `pmInhibitors`. -/
structure InhibitState where
  ssInhibitors : List (Nat × String)
  pmInhibitors : List (Nat × String)

/-- `PowerKit::handleNewInhibitScreenSaver` (powerkit.cpp:388-393):
unconditional upsert, `reason` unused, always announces
`UpdatedInhibitors` (the returned Bool). -/
def handleNewInhibitScreenSaver (st : InhibitState)
    (application reason : String) (cookie : Nat) : InhibitState × Bool :=
  let _ := reason
  ({ st with ssInhibitors := tableSet st.ssInhibitors cookie application }, true)

/-- `PowerKit::handleNewInhibitPowerManagement` (powerkit.cpp:395-400). -/
def handleNewInhibitPowerManagement (st : InhibitState)
    (application reason : String) (cookie : Nat) : InhibitState × Bool :=
  let _ := reason
  ({ st with pmInhibitors := tableSet st.pmInhibitors cookie application }, true)

/-- `PowerKit::handleDelInhibitScreenSaver` (powerkit.cpp:402-408):
removal only when the cookie is present, in which case
`UpdatedInhibitors` is announced; otherwise a strict no-op. -/
def handleDelInhibitScreenSaver (st : InhibitState) (cookie : Nat) :
    InhibitState × Bool :=
  if tableContains st.ssInhibitors cookie then
    ({ st with ssInhibitors := tableRemove st.ssInhibitors cookie }, true)
  else (st, false)

/-- `PowerKit::handleDelInhibitPowerManagement` (powerkit.cpp:410-416). -/
def handleDelInhibitPowerManagement (st : InhibitState) (cookie : Nat) :
    InhibitState × Bool :=
  if tableContains st.pmInhibitors cookie then
    ({ st with pmInhibitors := tableRemove st.pmInhibitors cookie }, true)
  else (st, false)

end PowerKit

namespace Power

/-- The D-Bus world as seen by one `Power` (power.cpp) call: handle
validity and the two suspend-capability answers. -/
structure Env where
  logindValid : Bool
  upowerValid : Bool
  login1CanSuspend : Bool
  upowerCanSuspend : Bool
  deriving Repr, DecidableEq

/-- `Power::canSuspend` (power.cpp:70-75): logind (Login1::canSuspend),
else the UPower CanSuspend property, else false. -/
def canSuspend (e : Env) : Bool :=
  if e.logindValid then e.login1CanSuspend
  else if e.upowerValid then e.upowerCanSuspend
  else false

/-- The suspend call `Power::sleep` can make. -/
inductive SleepCall where
  | login1Suspend
  | upowerSuspend
  deriving Repr, DecidableEq

/-- `Power::sleep` (power.cpp:95-104): gated on `canSuspend()`; when the
capability check fails, no call is made and nothing is returned (the
function is void). -/
def sleep (e : Env) : Option SleepCall :=
  if canSuspend e then
    if e.logindValid then some SleepCall.login1Suspend
    else if e.upowerValid then some SleepCall.upowerSuspend
    else none
  else none

/-- `Power::scanDevices` (power.cpp:206-221): same creation loop as
`PowerKit::scan`, but with NO `UpdateDevices()` sweep — existing devices
are genuinely left untouched; `updatedDevices` (the returned flag) is
emitted unconditionally. -/
def scanDevices (env : PowerKit.RegistryEnv)
    (devices : List (String × PowerKit.Device)) :
    List (String × PowerKit.Device) × Bool :=
  (env.backendList.foldl
    (fun acc p => if PowerKit.mapContains acc p then acc else acc ++ [(p, env.fresh p)])
    devices, true)

end Power

namespace PowerKit

lemma deviceChanged_fst (s : TrackerState) (o : Observation) :
    (deviceChanged s o).1 = ⟨s.wasDocked, o.lidIsClosed, o.onBattery⟩ := by
  obtain ⟨d, lc, ob⟩ := s
  rfl

lemma deviceChanged_count_sb (s : TrackerState) (o : Observation) :
    (deviceChanged s o).2.count Event.SwitchedToBattery
      = if !s.wasOnBattery && o.onBattery then 1 else 0 := by
  obtain ⟨d, lc, ob⟩ := s
  obtain ⟨l, b, dk⟩ := o
  cases lc <;> cases ob <;> cases l <;> cases b <;> rfl

lemma deviceChanged_count_ac (s : TrackerState) (o : Observation) :
    (deviceChanged s o).2.count Event.SwitchedToAC
      = if s.wasOnBattery && !o.onBattery then 1 else 0 := by
  obtain ⟨d, lc, ob⟩ := s
  obtain ⟨l, b, dk⟩ := o
  cases lc <;> cases ob <;> cases l <;> cases b <;> rfl

lemma deviceChanged_count_lc (s : TrackerState) (o : Observation) :
    (deviceChanged s o).2.count Event.LidClosed
      = if !s.wasLidClosed && o.lidIsClosed then 1 else 0 := by
  obtain ⟨d, lc, ob⟩ := s
  obtain ⟨l, b, dk⟩ := o
  cases lc <;> cases ob <;> cases l <;> cases b <;> rfl

lemma deviceChanged_count_lo (s : TrackerState) (o : Observation) :
    (deviceChanged s o).2.count Event.LidOpened
      = if s.wasLidClosed && !o.lidIsClosed then 1 else 0 := by
  obtain ⟨d, lc, ob⟩ := s
  obtain ⟨l, b, dk⟩ := o
  cases lc <;> cases ob <;> cases l <;> cases b <;> rfl

lemma runTracker_count_sb (s : TrackerState) (obs : List Observation) :
    (runTracker s obs).2.count Event.SwitchedToBattery
      = risingEdges s.wasOnBattery (obs.map (fun o => o.onBattery)) := by
  induction obs generalizing s with
  | nil => rfl
  | cons o os ih =>
    simp only [runTracker, List.count_append, List.map_cons, risingEdges,
      deviceChanged_count_sb, deviceChanged_fst]
    rw [ih]

lemma runTracker_count_ac (s : TrackerState) (obs : List Observation) :
    (runTracker s obs).2.count Event.SwitchedToAC
      = fallingEdges s.wasOnBattery (obs.map (fun o => o.onBattery)) := by
  induction obs generalizing s with
  | nil => rfl
  | cons o os ih =>
    simp only [runTracker, List.count_append, List.map_cons, fallingEdges,
      deviceChanged_count_ac, deviceChanged_fst]
    rw [ih]

lemma runTracker_count_lc (s : TrackerState) (obs : List Observation) :
    (runTracker s obs).2.count Event.LidClosed
      = risingEdges s.wasLidClosed (obs.map (fun o => o.lidIsClosed)) := by
  induction obs generalizing s with
  | nil => rfl
  | cons o os ih =>
    simp only [runTracker, List.count_append, List.map_cons, risingEdges,
      deviceChanged_count_lc, deviceChanged_fst]
    rw [ih]

lemma runTracker_count_lo (s : TrackerState) (obs : List Observation) :
    (runTracker s obs).2.count Event.LidOpened
      = fallingEdges s.wasLidClosed (obs.map (fun o => o.lidIsClosed)) := by
  induction obs generalizing s with
  | nil => rfl
  | cons o os ih =>
    simp only [runTracker, List.count_append, List.map_cons, fallingEdges,
      deviceChanged_count_lo, deviceChanged_fst]
    rw [ih]

lemma qualifying_eq_false_of_empty_path (d : Device) (h : d.nativePath.isEmpty = true) :
    qualifying d = false := by
  simp [qualifying, h]

lemma filter_qualifying_cons_of_empty_path (d : Device) (devs : List Device)
    (h : d.nativePath.isEmpty = true) :
    (d :: devs).filter qualifying = devs.filter qualifying := by
  simp [List.filter, qualifying_eq_false_of_empty_path d h]

/-- C1: with zero qualifying devices the source evaluates the unguarded
division `batteryLeft/batteries` as `0.0/0`, i.e. IEEE NaN (modelled
`none`) — NOT the value `0` the claim requires; with two qualifying
devices at 40 and 60 percent the mean 50 is returned as claimed. -/
theorem claim_C1_batteryLeft_division :
    BatteryLeft [] = none ∧
    BatteryLeft [⟨true, true, "BAT0", 40, 0, 0⟩, ⟨true, true, "BAT1", 60, 0, 0⟩]
      = some 50 := by
  constructor
  · rfl
  · simp [BatteryLeft, qualifying, List.filter,
      show ("BAT0".isEmpty) = false from rfl, show ("BAT1".isEmpty) = false from rfl]
    norm_num

/-- C2: per `deviceChanged` call, each edge event of the two pairs is
emitted exactly once when the observed value differs from the cached one
in the corresponding direction and never otherwise (hence never on a
repeated identical read, and at most one event of each pair per call);
over any sequence of calls the number of emissions of each event equals
the number of actual transitions of the observed value. -/
theorem claim_C2_edge_events :
    (∀ (s : TrackerState) (o : Observation),
      (deviceChanged s o).2.count Event.SwitchedToBattery
          = (if !s.wasOnBattery && o.onBattery then 1 else 0) ∧
      (deviceChanged s o).2.count Event.SwitchedToAC
          = (if s.wasOnBattery && !o.onBattery then 1 else 0) ∧
      (deviceChanged s o).2.count Event.LidClosed
          = (if !s.wasLidClosed && o.lidIsClosed then 1 else 0) ∧
      (deviceChanged s o).2.count Event.LidOpened
          = (if s.wasLidClosed && !o.lidIsClosed then 1 else 0)) ∧
    (∀ (s : TrackerState) (obs : List Observation),
      (runTracker s obs).2.count Event.SwitchedToBattery
          = risingEdges s.wasOnBattery (obs.map (fun o => o.onBattery)) ∧
      (runTracker s obs).2.count Event.SwitchedToAC
          = fallingEdges s.wasOnBattery (obs.map (fun o => o.onBattery)) ∧
      (runTracker s obs).2.count Event.LidClosed
          = risingEdges s.wasLidClosed (obs.map (fun o => o.lidIsClosed)) ∧
      (runTracker s obs).2.count Event.LidOpened
          = fallingEdges s.wasLidClosed (obs.map (fun o => o.lidIsClosed))) :=
  ⟨fun s o => ⟨deviceChanged_count_sb s o, deviceChanged_count_ac s o,
      deviceChanged_count_lc s o, deviceChanged_count_lo s o⟩,
   fun s obs => ⟨runTracker_count_sb s obs, runTracker_count_ac s obs,
      runTracker_count_lc s obs, runTracker_count_lo s obs⟩⟩

/-- C6 counterexample: a `deviceChanged` call during which the backend
reports docked; the `wasDocked` cache stays `false` instead of taking the
freshly observed value, because the source never assigns to it. -/
theorem claim_C6_counterexample :
    (deviceChanged ⟨false, false, false⟩ ⟨false, false, true⟩).1.wasDocked
      ≠ (Observation.mk false false true).isDocked := by
  decide

/-- C6 amended: after every `deviceChanged` call, `wasLidClosed` and
`wasOnBattery` equal the freshly observed values (updated
unconditionally), but `wasDocked` is never updated — it keeps its prior
value regardless of the observed docked state. -/
theorem claim_C6_amended :
    ∀ (s : TrackerState) (o : Observation),
      (deviceChanged s o).1.wasLidClosed = o.lidIsClosed ∧
      (deviceChanged s o).1.wasOnBattery = o.onBattery ∧
      (deviceChanged s o).1.wasDocked = s.wasDocked := by
  intro s o
  rw [deviceChanged_fst]
  exact ⟨rfl, rfl, rfl⟩

/-- C8 counterexample: a present battery Device with empty `nativePath`
makes `HasBattery` true all by itself, so it does contribute to the
`hasBattery` aggregate, contrary to the claim. -/
theorem claim_C8_counterexample :
    HasBattery [⟨true, true, "", 50, 0, 0⟩] = true ∧
    HasBattery [] = false ∧
    (Device.mk true true "" 50 0 0).nativePath.isEmpty = true ∧
    (Device.mk true true "" 50 0 0).isBattery = true ∧
    (Device.mk true true "" 50 0 0).isPresent = true :=
  ⟨rfl, rfl, rfl, rfl, rfl⟩

/-- C8 amended: a Device with empty `nativePath` never contributes to
`batteryLeft`, `timeToEmpty` or `timeToFull` (their filter requires a
non-empty native path), but `hasBattery` tests only `isBattery`, so such
a device does contribute there. -/
theorem claim_C8_amended :
    ∀ (devs : List Device) (d : Device), d.nativePath.isEmpty = true →
      BatteryLeft (d :: devs) = BatteryLeft devs ∧
      TimeToEmpty (d :: devs) = TimeToEmpty devs ∧
      TimeToFull (d :: devs) = TimeToFull devs ∧
      HasBattery (d :: devs) = (d.isBattery || HasBattery devs) := by
  intro devs d h
  refine ⟨?_, ?_, ?_, ?_⟩
  · simp [BatteryLeft, filter_qualifying_cons_of_empty_path d devs h]
  · simp [TimeToEmpty, filter_qualifying_cons_of_empty_path d devs h]
  · simp [TimeToFull, filter_qualifying_cons_of_empty_path d devs h]
  · simp [HasBattery]

/-- C8 amended, witness at a concrete empty-path battery device. -/
theorem claim_C8_amended_witness :
    (Device.mk true true "" 50 0 0).nativePath.isEmpty = true ∧
    (BatteryLeft [Device.mk true true "" 50 0 0] = BatteryLeft [] ∧
     TimeToEmpty [Device.mk true true "" 50 0 0] = TimeToEmpty [] ∧
     TimeToFull [Device.mk true true "" 50 0 0] = TimeToFull [] ∧
     HasBattery [Device.mk true true "" 50 0 0]
        = ((Device.mk true true "" 50 0 0).isBattery || HasBattery [])) :=
  ⟨rfl, claim_C8_amended [] (Device.mk true true "" 50 0 0) rfl⟩

/-- C3 counterexample: an environment where logind is reachable, the
interface is valid, but every capability query answers false.
`CanSuspend` reports false, yet `Suspend` still makes the D-Bus suspend
call on logind and does not return the no-backend result — the action
path never consults the capability. -/
theorem claim_C3_counterexample :
    CanSuspend ⟨true, false, true, fun _ _ => false, fun _ => true, fun _ _ => ""⟩ = false ∧
    (Suspend ⟨true, false, true, fun _ _ => false, fun _ => true, fun _ _ => ""⟩).2
      = some (PKAction.PKSuspendAction, PKBackend.PKLogind) ∧
    (Suspend ⟨true, false, true, fun _ _ => false, fun _ => true, fun _ _ => ""⟩).1
      ≠ PK_NO_BACKEND := by
  refine ⟨rfl, rfl, ?_⟩
  decide

/-- C3 amended: the PowerKit action methods consult only backend
reachability, never any capability answer (changing every capability
answer changes nothing); the no-backend result, with no call attempted,
arises exactly when no backend in the priority list is reachable; when a
backend is reachable and its interface valid, the call is attempted
regardless of capability.  `Power::sleep` alone gates on `canSuspend()`:
when that capability check fails it makes no call (and, being void,
returns nothing rather than a backend-unavailable result). -/
theorem claim_C3_amended :
    (∀ (e : BusEnv) (f : PKMethod → PKBackend → Bool),
      Restart { e with availRes := f } = Restart e ∧
      PowerOff { e with availRes := f } = PowerOff e ∧
      Suspend { e with availRes := f } = Suspend e ∧
      Hibernate { e with availRes := f } = Hibernate e ∧
      HybridSleep { e with availRes := f } = HybridSleep e) ∧
    (∀ e : BusEnv, e.hasLogind = false → e.hasConsoleKit = false → e.hasUPower = false →
      Restart e = (PK_NO_BACKEND, none) ∧
      PowerOff e = (PK_NO_BACKEND, none) ∧
      Suspend e = (PK_NO_BACKEND, none) ∧
      Hibernate e = (PK_NO_BACKEND, none) ∧
      HybridSleep e = (PK_NO_BACKEND, none)) ∧
    (∀ e : BusEnv, e.hasLogind = true → e.ifaceValid PKBackend.PKLogind = true →
      (Restart e).2 = some (PKAction.PKRestartAction, PKBackend.PKLogind) ∧
      (PowerOff e).2 = some (PKAction.PKPowerOffAction, PKBackend.PKLogind) ∧
      (Suspend e).2 = some (PKAction.PKSuspendAction, PKBackend.PKLogind) ∧
      (Hibernate e).2 = some (PKAction.PKHibernateAction, PKBackend.PKLogind) ∧
      (HybridSleep e).2 = some (PKAction.PKHybridSleepAction, PKBackend.PKLogind)) ∧
    (∀ pe : Power.Env, Power.canSuspend pe = false → Power.sleep pe = none) := by
  refine ⟨fun e f => ⟨rfl, rfl, rfl, rfl, rfl⟩, ?_, ?_, ?_⟩
  · intro e h1 h2 h3
    refine ⟨?_, ?_, ?_, ?_, ?_⟩ <;>
      simp [Restart, PowerOff, Suspend, Hibernate, HybridSleep, h1, h2, h3]
  · intro e h1 h2
    refine ⟨?_, ?_, ?_, ?_, ?_⟩ <;>
      simp [Restart, PowerOff, Suspend, Hibernate, HybridSleep, executeAction, h1, h2]
  · intro pe h
    simp [Power.sleep, h]

/-- C3 amended, witness at concrete environments. -/
theorem claim_C3_amended_witness :
    (Suspend { (⟨false, false, false, fun _ _ => false, fun _ => false, fun _ _ => ""⟩ : BusEnv)
        with availRes := fun _ _ => true }
      = Suspend ⟨false, false, false, fun _ _ => false, fun _ => false, fun _ _ => ""⟩) ∧
    ((⟨false, false, false, fun _ _ => true, fun _ => true, fun _ _ => ""⟩ : BusEnv).hasLogind
        = false ∧
     Restart ⟨false, false, false, fun _ _ => true, fun _ => true, fun _ _ => ""⟩
        = (PK_NO_BACKEND, none)) ∧
    ((⟨true, false, false, fun _ _ => false, fun _ => true, fun _ _ => ""⟩ : BusEnv).hasLogind
        = true ∧
     (Suspend ⟨true, false, false, fun _ _ => false, fun _ => true, fun _ _ => ""⟩).2
        = some (PKAction.PKSuspendAction, PKBackend.PKLogind)) ∧
    (Power.canSuspend ⟨false, false, false, false⟩ = false ∧
     Power.sleep ⟨false, false, false, false⟩ = none) :=
  ⟨(claim_C3_amended.1 ⟨false, false, false, fun _ _ => false, fun _ => false, fun _ _ => ""⟩
      (fun _ _ => true)).2.2.1,
   ⟨rfl, (claim_C3_amended.2.1 ⟨false, false, false, fun _ _ => true, fun _ => true, fun _ _ => ""⟩
      rfl rfl rfl).1⟩,
   ⟨rfl, (claim_C3_amended.2.2.1 ⟨true, false, false, fun _ _ => false, fun _ => true, fun _ _ => ""⟩
      rfl rfl).2.2.1⟩,
   ⟨rfl, claim_C3_amended.2.2.2 ⟨false, false, false, false⟩ rfl⟩⟩

/-- C7: every capability query returns the answer of the first reachable
backend in its priority list (logind, then ConsoleKit, then — for
suspend/hibernate only — UPower), returns false when no backend of its
list is reachable, and the restart/power-off/hybrid-sleep queries are
independent of UPower reachability and of every UPower answer; in
particular a reachable logind answering false makes `CanSuspend` false
whatever UPower would say. -/
theorem claim_C7_capability_priority :
    (∀ e : BusEnv, e.hasLogind = true →
      CanRestart e = e.availRes PKMethod.PKCanRestart PKBackend.PKLogind ∧
      CanPowerOff e = e.availRes PKMethod.PKCanPowerOff PKBackend.PKLogind ∧
      CanSuspend e = e.availRes PKMethod.PKCanSuspend PKBackend.PKLogind ∧
      CanHibernate e = e.availRes PKMethod.PKCanHibernate PKBackend.PKLogind ∧
      CanHybridSleep e = e.availRes PKMethod.PKCanHybridSleep PKBackend.PKLogind) ∧
    (∀ e : BusEnv, e.hasLogind = false → e.hasConsoleKit = true →
      CanRestart e = e.availRes PKMethod.PKCanRestart PKBackend.PKConsoleKit ∧
      CanPowerOff e = e.availRes PKMethod.PKCanPowerOff PKBackend.PKConsoleKit ∧
      CanSuspend e = e.availRes PKMethod.PKCanSuspend PKBackend.PKConsoleKit ∧
      CanHibernate e = e.availRes PKMethod.PKCanHibernate PKBackend.PKConsoleKit ∧
      CanHybridSleep e = e.availRes PKMethod.PKCanHybridSleep PKBackend.PKConsoleKit) ∧
    (∀ e : BusEnv, e.hasLogind = false → e.hasConsoleKit = false → e.hasUPower = true →
      CanSuspend e = e.availRes PKMethod.PKSuspendAllowed PKBackend.PKUPower ∧
      CanHibernate e = e.availRes PKMethod.PKHibernateAllowed PKBackend.PKUPower) ∧
    (∀ e : BusEnv, e.hasLogind = false → e.hasConsoleKit = false →
      CanRestart e = false ∧ CanPowerOff e = false ∧ CanHybridSleep e = false) ∧
    (∀ e : BusEnv, e.hasLogind = false → e.hasConsoleKit = false → e.hasUPower = false →
      CanSuspend e = false ∧ CanHibernate e = false) ∧
    (∀ (e : BusEnv) (u : Bool) (f : PKMethod → Bool),
      CanRestart ⟨e.hasLogind, e.hasConsoleKit, u,
          fun m b => if b = PKBackend.PKUPower then f m else e.availRes m b,
          e.ifaceValid, e.callErr⟩ = CanRestart e ∧
      CanPowerOff ⟨e.hasLogind, e.hasConsoleKit, u,
          fun m b => if b = PKBackend.PKUPower then f m else e.availRes m b,
          e.ifaceValid, e.callErr⟩ = CanPowerOff e ∧
      CanHybridSleep ⟨e.hasLogind, e.hasConsoleKit, u,
          fun m b => if b = PKBackend.PKUPower then f m else e.availRes m b,
          e.ifaceValid, e.callErr⟩ = CanHybridSleep e) ∧
    (∀ e : BusEnv, e.hasLogind = true →
      e.availRes PKMethod.PKCanSuspend PKBackend.PKLogind = false →
      CanSuspend e = false) := by
  refine ⟨?_, ?_, ?_, ?_, ?_, ?_, ?_⟩
  · intro e h
    refine ⟨?_, ?_, ?_, ?_, ?_⟩ <;>
      simp [CanRestart, CanPowerOff, CanSuspend, CanHibernate, CanHybridSleep,
        availableAction, h]
  · intro e h1 h2
    refine ⟨?_, ?_, ?_, ?_, ?_⟩ <;>
      simp [CanRestart, CanPowerOff, CanSuspend, CanHibernate, CanHybridSleep,
        availableAction, h1, h2]
  · intro e h1 h2 h3
    refine ⟨?_, ?_⟩ <;> simp [CanSuspend, CanHibernate, availableAction, h1, h2, h3]
  · intro e h1 h2
    refine ⟨?_, ?_, ?_⟩ <;> simp [CanRestart, CanPowerOff, CanHybridSleep, h1, h2]
  · intro e h1 h2 h3
    refine ⟨?_, ?_⟩ <;> simp [CanSuspend, CanHibernate, h1, h2, h3]
  · intro e u f
    refine ⟨?_, ?_, ?_⟩ <;>
      · simp only [CanRestart, CanPowerOff, CanHybridSleep, availableAction]
        cases h1 : e.hasLogind <;> cases h2 : e.hasConsoleKit <;> simp
  · intro e h1 h2
    simp [CanSuspend, availableAction, h1, h2]

/-- C7, witness at concrete environments covering each priority tier. -/
theorem claim_C7_capability_priority_witness :
    (CanSuspend ⟨true, false, false, fun _ _ => true, fun _ => true, fun _ _ => ""⟩
      = (⟨true, false, false, fun _ _ => true, fun _ => true, fun _ _ => ""⟩ : BusEnv).availRes
          PKMethod.PKCanSuspend PKBackend.PKLogind) ∧
    (CanSuspend ⟨false, true, false, fun _ _ => true, fun _ => true, fun _ _ => ""⟩
      = (⟨false, true, false, fun _ _ => true, fun _ => true, fun _ _ => ""⟩ : BusEnv).availRes
          PKMethod.PKCanSuspend PKBackend.PKConsoleKit) ∧
    (CanSuspend ⟨false, false, true, fun _ _ => true, fun _ => true, fun _ _ => ""⟩
      = (⟨false, false, true, fun _ _ => true, fun _ => true, fun _ _ => ""⟩ : BusEnv).availRes
          PKMethod.PKSuspendAllowed PKBackend.PKUPower) ∧
    (CanRestart ⟨false, false, true, fun _ _ => true, fun _ => true, fun _ _ => ""⟩ = false) ∧
    (CanSuspend ⟨false, false, false, fun _ _ => true, fun _ => true, fun _ _ => ""⟩ = false) ∧
    (CanHybridSleep ⟨false, false, false,
        fun m b => if b = PKBackend.PKUPower then true else
          (⟨false, false, true, fun _ _ => true, fun _ => true, fun _ _ => ""⟩ : BusEnv).availRes m b,
        fun _ => true, fun _ _ => ""⟩
      = CanHybridSleep ⟨false, false, true, fun _ _ => true, fun _ => true, fun _ _ => ""⟩) ∧
    (CanSuspend ⟨true, false, true, fun _ b => !(b = PKBackend.PKLogind), fun _ => true,
        fun _ _ => ""⟩ = false) :=
  ⟨(claim_C7_capability_priority.1
      ⟨true, false, false, fun _ _ => true, fun _ => true, fun _ _ => ""⟩ rfl).2.2.1,
   (claim_C7_capability_priority.2.1
      ⟨false, true, false, fun _ _ => true, fun _ => true, fun _ _ => ""⟩ rfl rfl).2.2.1,
   (claim_C7_capability_priority.2.2.1
      ⟨false, false, true, fun _ _ => true, fun _ => true, fun _ _ => ""⟩ rfl rfl rfl).1,
   (claim_C7_capability_priority.2.2.2.1
      ⟨false, false, true, fun _ _ => true, fun _ => true, fun _ _ => ""⟩ rfl rfl).1,
   (claim_C7_capability_priority.2.2.2.2.1
      ⟨false, false, false, fun _ _ => true, fun _ => true, fun _ _ => ""⟩ rfl rfl rfl).1,
   (claim_C7_capability_priority.2.2.2.2.2.1
      ⟨false, false, true, fun _ _ => true, fun _ => true, fun _ _ => ""⟩ false
      (fun _ => true)).2.2,
   claim_C7_capability_priority.2.2.2.2.2.2
      ⟨true, false, true, fun _ b => !(b = PKBackend.PKLogind), fun _ => true, fun _ _ => ""⟩
      rfl (by decide)⟩

lemma find?_tableSet_self (t : List (Nat × String)) (c : Nat) (a : String) :
    List.find? (fun e => e.1 == c) (tableSet t c a) = some (c, a) := by
  induction t with
  | nil => simp [tableSet]
  | cons e t ih =>
    by_cases he : (e.1 == c) = true
    · have he1 : e.1 = c := by simpa using he
      simp [tableSet, he, List.find?_cons, he1]
    · simp only [Bool.not_eq_true] at he
      simp [tableSet, he, List.find?_cons, ih]

lemma tableLookup_set_self (t : List (Nat × String)) (c : Nat) (a : String) :
    tableLookup (tableSet t c a) c = some a := by
  rw [tableLookup, find?_tableSet_self]
  rfl

lemma find?_tableSet_other (t : List (Nat × String)) (c : Nat) (a : String) (c' : Nat)
    (hne : c' ≠ c) :
    List.find? (fun e => e.1 == c') (tableSet t c a) = List.find? (fun e => e.1 == c') t := by
  have hcc : (c == c') = false := by simp [Ne.symm hne]
  induction t with
  | nil => simp [tableSet, List.find?_cons, hcc]
  | cons e t ih =>
    by_cases he : (e.1 == c) = true
    · have he1 : e.1 = c := by simpa using he
      have he2 : (e.1 == c') = false := by simp [he1, Ne.symm hne]
      simp [tableSet, he, List.find?_cons, he2]
    · simp only [Bool.not_eq_true] at he
      by_cases he' : (e.1 == c') = true
      · simp [tableSet, he, List.find?_cons, he']
      · simp only [Bool.not_eq_true] at he'
        simp [tableSet, he, List.find?_cons, he', ih]

lemma tableLookup_set_other (t : List (Nat × String)) (c : Nat) (a : String) (c' : Nat)
    (hne : c' ≠ c) :
    tableLookup (tableSet t c a) c' = tableLookup t c' := by
  rw [tableLookup, find?_tableSet_other t c a c' hne, tableLookup]

lemma tableSet_length (t : List (Nat × String)) (c : Nat) (a : String) :
    (tableSet t c a).length
      = (if tableContains t c = true then t.length else t.length + 1) := by
  induction t with
  | nil => simp [tableSet, tableContains]
  | cons e t ih =>
    by_cases he : (e.1 == c) = true
    · have hc : tableContains (e :: t) c = true := by
        simp [tableContains, List.any_cons, he]
      simp [tableSet, he, hc]
    · simp only [Bool.not_eq_true] at he
      have hc : tableContains (e :: t) c = tableContains t c := by
        simp [tableContains, List.any_cons, he]
      rw [show tableSet (e :: t) c a = e :: tableSet t c a by simp [tableSet, he]]
      simp only [List.length_cons, ih, hc]
      by_cases ht : tableContains t c = true <;> simp [ht]

lemma tableRemove_cons (e : Nat × String) (t : List (Nat × String)) (c : Nat) :
    tableRemove (e :: t) c
      = if (e.1 == c) = true then tableRemove t c else e :: tableRemove t c := by
  by_cases he : (e.1 == c) = true <;> simp [tableRemove, List.filter_cons, he]

lemma find?_tableRemove_self (t : List (Nat × String)) (c : Nat) :
    List.find? (fun e => e.1 == c) (tableRemove t c) = none := by
  rw [List.find?_eq_none]
  intro x hx
  simp only [tableRemove, List.mem_filter] at hx
  simpa using hx.2

lemma tableLookup_remove_self (t : List (Nat × String)) (c : Nat) :
    tableLookup (tableRemove t c) c = none := by
  rw [tableLookup, find?_tableRemove_self]
  rfl

lemma find?_tableRemove_other (t : List (Nat × String)) (c c' : Nat) (hne : c' ≠ c) :
    List.find? (fun e => e.1 == c') (tableRemove t c) = List.find? (fun e => e.1 == c') t := by
  induction t with
  | nil => simp [tableRemove]
  | cons e t ih =>
    rw [tableRemove_cons]
    by_cases he : (e.1 == c) = true
    · have he1 : e.1 = c := by simpa using he
      have he2 : (e.1 == c') = false := by simp [he1, Ne.symm hne]
      simp [he, List.find?_cons, he2, ih]
    · simp only [Bool.not_eq_true] at he
      by_cases he' : (e.1 == c') = true
      · simp [he, List.find?_cons, he']
      · simp only [Bool.not_eq_true] at he'
        simp [he, List.find?_cons, he', ih]

lemma tableLookup_remove_other (t : List (Nat × String)) (c c' : Nat) (hne : c' ≠ c) :
    tableLookup (tableRemove t c) c' = tableLookup t c' := by
  rw [tableLookup, find?_tableRemove_other t c c' hne, tableLookup]

/-- C9: in both inhibitor tables, `NewInhibit` is an unconditional upsert
(afterwards the cookie maps to the new application, other cookies and the
other table are untouched, and a duplicate cookie replaces the entry
without growing the table — last-writer-wins, no error), and `DelInhibit`
deletes a present cookie (and only announces then) while an absent cookie
leaves state and announcement flag exactly unchanged. -/
theorem claim_C9_inhibitors :
    (∀ (st : InhibitState) (a r : String) (c : Nat),
      (handleNewInhibitScreenSaver st a r c).2 = true ∧
      tableLookup (handleNewInhibitScreenSaver st a r c).1.ssInhibitors c = some a ∧
      (handleNewInhibitScreenSaver st a r c).1.pmInhibitors = st.pmInhibitors ∧
      (∀ c', c' ≠ c →
        tableLookup (handleNewInhibitScreenSaver st a r c).1.ssInhibitors c'
          = tableLookup st.ssInhibitors c')) ∧
    (∀ (st : InhibitState) (a r : String) (c : Nat),
      tableContains st.ssInhibitors c = true →
      (handleNewInhibitScreenSaver st a r c).1.ssInhibitors.length
        = st.ssInhibitors.length) ∧
    (∀ (st : InhibitState) (c : Nat),
      tableContains st.ssInhibitors c = false →
      handleDelInhibitScreenSaver st c = (st, false)) ∧
    (∀ (st : InhibitState) (c : Nat),
      tableContains st.ssInhibitors c = true →
      (handleDelInhibitScreenSaver st c).2 = true ∧
      tableLookup (handleDelInhibitScreenSaver st c).1.ssInhibitors c = none ∧
      (handleDelInhibitScreenSaver st c).1.pmInhibitors = st.pmInhibitors ∧
      (∀ c', c' ≠ c →
        tableLookup (handleDelInhibitScreenSaver st c).1.ssInhibitors c'
          = tableLookup st.ssInhibitors c')) ∧
    (∀ (st : InhibitState) (a r : String) (c : Nat),
      (handleNewInhibitPowerManagement st a r c).2 = true ∧
      tableLookup (handleNewInhibitPowerManagement st a r c).1.pmInhibitors c = some a ∧
      (handleNewInhibitPowerManagement st a r c).1.ssInhibitors = st.ssInhibitors ∧
      (∀ c', c' ≠ c →
        tableLookup (handleNewInhibitPowerManagement st a r c).1.pmInhibitors c'
          = tableLookup st.pmInhibitors c')) ∧
    (∀ (st : InhibitState) (a r : String) (c : Nat),
      tableContains st.pmInhibitors c = true →
      (handleNewInhibitPowerManagement st a r c).1.pmInhibitors.length
        = st.pmInhibitors.length) ∧
    (∀ (st : InhibitState) (c : Nat),
      tableContains st.pmInhibitors c = false →
      handleDelInhibitPowerManagement st c = (st, false)) ∧
    (∀ (st : InhibitState) (c : Nat),
      tableContains st.pmInhibitors c = true →
      (handleDelInhibitPowerManagement st c).2 = true ∧
      tableLookup (handleDelInhibitPowerManagement st c).1.pmInhibitors c = none ∧
      (handleDelInhibitPowerManagement st c).1.ssInhibitors = st.ssInhibitors ∧
      (∀ c', c' ≠ c →
        tableLookup (handleDelInhibitPowerManagement st c).1.pmInhibitors c'
          = tableLookup st.pmInhibitors c')) := by
  refine ⟨?_, ?_, ?_, ?_, ?_, ?_, ?_, ?_⟩
  · intro st a r c
    exact ⟨rfl, tableLookup_set_self st.ssInhibitors c a, rfl,
      fun c' hne => tableLookup_set_other st.ssInhibitors c a c' hne⟩
  · intro st a r c h
    simp [handleNewInhibitScreenSaver, tableSet_length, h]
  · intro st c h
    simp [handleDelInhibitScreenSaver, h]
  · intro st c h
    refine ⟨?_, ?_, ?_, ?_⟩
    · simp [handleDelInhibitScreenSaver, h]
    · simp [handleDelInhibitScreenSaver, h, tableLookup_remove_self]
    · simp [handleDelInhibitScreenSaver, h]
    · intro c' hne
      simp [handleDelInhibitScreenSaver, h, tableLookup_remove_other _ _ _ hne]
  · intro st a r c
    exact ⟨rfl, tableLookup_set_self st.pmInhibitors c a, rfl,
      fun c' hne => tableLookup_set_other st.pmInhibitors c a c' hne⟩
  · intro st a r c h
    simp [handleNewInhibitPowerManagement, tableSet_length, h]
  · intro st c h
    simp [handleDelInhibitPowerManagement, h]
  · intro st c h
    refine ⟨?_, ?_, ?_, ?_⟩
    · simp [handleDelInhibitPowerManagement, h]
    · simp [handleDelInhibitPowerManagement, h, tableLookup_remove_self]
    · simp [handleDelInhibitPowerManagement, h]
    · intro c' hne
      simp [handleDelInhibitPowerManagement, h, tableLookup_remove_other _ _ _ hne]

/-- C9, witness on concrete tables: cookie 7 upserted twice (last writer
wins, no growth), deleted once, and a deletion of absent cookie 999. -/
theorem claim_C9_inhibitors_witness :
    ((handleNewInhibitScreenSaver ⟨[], []⟩ "app" "r" 7).2 = true ∧
     tableLookup (handleNewInhibitScreenSaver ⟨[], []⟩ "app" "r" 7).1.ssInhibitors 7
        = some "app") ∧
    (tableContains ((⟨[(7, "app")], []⟩ : InhibitState)).ssInhibitors 7 = true ∧
     (handleNewInhibitScreenSaver ⟨[(7, "app")], []⟩ "app2" "r" 7).1.ssInhibitors.length
        = [(7, "app")].length) ∧
    (tableContains ((⟨[(7, "app")], []⟩ : InhibitState)).ssInhibitors 999 = false ∧
     handleDelInhibitScreenSaver ⟨[(7, "app")], []⟩ 999 = (⟨[(7, "app")], []⟩, false)) ∧
    (tableContains ((⟨[(7, "app")], []⟩ : InhibitState)).ssInhibitors 7 = true ∧
     tableLookup (handleDelInhibitScreenSaver ⟨[(7, "app")], []⟩ 7).1.ssInhibitors 7
        = none) ∧
    ((handleNewInhibitPowerManagement ⟨[], []⟩ "app" "r" 7).2 = true ∧
     tableLookup (handleNewInhibitPowerManagement ⟨[], []⟩ "app" "r" 7).1.pmInhibitors 7
        = some "app") ∧
    (tableContains ((⟨[], [(7, "app")]⟩ : InhibitState)).pmInhibitors 7 = true ∧
     (handleNewInhibitPowerManagement ⟨[], [(7, "app")]⟩ "app2" "r" 7).1.pmInhibitors.length
        = [(7, "app")].length) ∧
    (tableContains ((⟨[], [(7, "app")]⟩ : InhibitState)).pmInhibitors 999 = false ∧
     handleDelInhibitPowerManagement ⟨[], [(7, "app")]⟩ 999 = (⟨[], [(7, "app")]⟩, false)) ∧
    (tableContains ((⟨[], [(7, "app")]⟩ : InhibitState)).pmInhibitors 7 = true ∧
     tableLookup (handleDelInhibitPowerManagement ⟨[], [(7, "app")]⟩ 7).1.pmInhibitors 7
        = none) :=
  ⟨⟨(claim_C9_inhibitors.1 ⟨[], []⟩ "app" "r" 7).1,
    (claim_C9_inhibitors.1 ⟨[], []⟩ "app" "r" 7).2.1⟩,
   ⟨rfl, claim_C9_inhibitors.2.1 ⟨[(7, "app")], []⟩ "app2" "r" 7 rfl⟩,
   ⟨rfl, claim_C9_inhibitors.2.2.1 ⟨[(7, "app")], []⟩ 999 rfl⟩,
   ⟨rfl, (claim_C9_inhibitors.2.2.2.1 ⟨[(7, "app")], []⟩ 7 rfl).2.1⟩,
   ⟨(claim_C9_inhibitors.2.2.2.2.1 ⟨[], []⟩ "app" "r" 7).1,
    (claim_C9_inhibitors.2.2.2.2.1 ⟨[], []⟩ "app" "r" 7).2.1⟩,
   ⟨rfl, claim_C9_inhibitors.2.2.2.2.2.1 ⟨[], [(7, "app")]⟩ "app2" "r" 7 rfl⟩,
   ⟨rfl, claim_C9_inhibitors.2.2.2.2.2.2.1 ⟨[], [(7, "app")]⟩ 999 rfl⟩,
   ⟨rfl, (claim_C9_inhibitors.2.2.2.2.2.2.2 ⟨[], [(7, "app")]⟩ 7 rfl).2.1⟩⟩

lemma mapContains_updateDevices (env : RegistryEnv) (m : List (String × Device)) (p : String) :
    mapContains (UpdateDevices env m) p = mapContains m p := by
  simp only [mapContains, UpdateDevices, List.any_map]
  rfl

lemma updateDevices_attrs (env : RegistryEnv) (m : List (String × Device)) :
    ∀ e ∈ UpdateDevices env m, e.2 = env.fresh e.1 := by
  intro e he
  simp only [UpdateDevices, List.mem_map] at he
  obtain ⟨x, _, hx⟩ := he
  rw [← hx]

lemma updateDevices_keys (env : RegistryEnv) (m : List (String × Device)) :
    (UpdateDevices env m).map (fun e => e.1) = m.map (fun e => e.1) := by
  simp [UpdateDevices, List.map_map, Function.comp]

lemma mapContains_mapTake_self (m : List (String × Device)) (k : String) :
    mapContains (mapTake m k) k = false := by
  simp only [mapContains, mapTake]
  rw [List.any_eq_false]
  intro e he
  simp only [List.mem_filter] at he
  simpa using he.2

lemma scanFold_contains (env : RegistryEnv) (bl : List String)
    (devs : List (String × Device)) (p : String) :
    mapContains (bl.foldl
        (fun acc q => if mapContains acc q then acc else acc ++ [(q, env.fresh q)]) devs) p
      = (mapContains devs p || bl.contains p) := by
  induction bl generalizing devs with
  | nil => simp
  | cons q bl ih =>
    rw [List.foldl_cons, ih]
    by_cases hq : mapContains devs q = true
    · by_cases hpq : q = p
      · subst hpq
        simp [hq, List.contains_cons]
      · simp [hq, List.contains_cons, Ne.symm hpq]
    · simp only [Bool.not_eq_true] at hq
      rw [if_neg (by simp [hq])]
      rw [show mapContains (devs ++ [(q, env.fresh q)]) p
            = (mapContains devs p || mapContains [(q, env.fresh q)] p) by
          simp [mapContains, List.any_append]]
      by_cases hpq : q = p
      · subst hpq
        simp [mapContains, List.contains_cons]
      · have : mapContains [(q, env.fresh q)] p = false := by
          simp [mapContains, hpq]
        simp [this, List.contains_cons, Ne.symm hpq, Bool.or_assoc]

lemma scanFold_append (env : RegistryEnv) (bl : List String)
    (devs : List (String × Device)) :
    ∃ rest, bl.foldl
        (fun acc q => if mapContains acc q then acc else acc ++ [(q, env.fresh q)]) devs
      = devs ++ rest := by
  induction bl generalizing devs with
  | nil => exact ⟨[], by simp⟩
  | cons q bl ih =>
    rw [List.foldl_cons]
    by_cases hq : mapContains devs q = true
    · rw [if_pos hq]
      exact ih devs
    · simp only [Bool.not_eq_true] at hq
      rw [if_neg (by simp [hq])]
      obtain ⟨rest, hrest⟩ := ih (devs ++ [(q, env.fresh q)])
      exact ⟨(q, env.fresh q) :: rest, by simpa using hrest⟩

lemma scanFold_keys_nodup (env : RegistryEnv) (bl : List String)
    (devs : List (String × Device)) (h : (devs.map (fun e => e.1)).Nodup) :
    ((bl.foldl
        (fun acc q => if mapContains acc q then acc else acc ++ [(q, env.fresh q)]) devs).map
      (fun e => e.1)).Nodup := by
  induction bl generalizing devs with
  | nil => simpa
  | cons q bl ih =>
    rw [List.foldl_cons]
    by_cases hq : mapContains devs q = true
    · rw [if_pos hq]
      exact ih devs h
    · simp only [Bool.not_eq_true] at hq
      rw [if_neg (by simp [hq])]
      refine ih _ ?_
      rw [List.map_append, List.nodup_append]
      refine ⟨h, by simp, ?_⟩
      intro x hx
      simp only [List.mem_map] at hx
      obtain ⟨e, he, hx⟩ := hx
      simp only [List.map_cons, List.map_nil, List.mem_singleton]
      intro hxq
      rw [hxq] at hx
      have : mapContains devs q = true := by
        simp only [mapContains, List.any_eq_true]
        exact ⟨e, he, by simp [hx]⟩
      simp [this] at hq

lemma scan_contains (env : RegistryEnv) (devs : List (String × Device)) (p : String) :
    mapContains (scan env devs).1 p = (mapContains devs p || env.backendList.contains p) := by
  show mapContains (UpdateDevices env _) p = _
  rw [mapContains_updateDevices, scanFold_contains]

lemma scan_attrs (env : RegistryEnv) (devs : List (String × Device)) :
    ∀ e ∈ (scan env devs).1, e.2 = env.fresh e.1 := by
  intro e he
  exact updateDevices_attrs env _ e he

lemma scan_keys_nodup (env : RegistryEnv) (devs : List (String × Device))
    (h : (devs.map (fun e => e.1)).Nodup) :
    (((scan env devs).1).map (fun e => e.1)).Nodup := by
  simp only [scan, updateDevices_keys]
  exact scanFold_keys_nodup env _ devs h

/-- C4 counterexample: a tracked device whose backend object now reports
different attributes.  `scan()` does NOT leave it untouched: the
`UpdateDevices()` sweep at the end of every scan forcibly refreshes its
cached attributes (10 percent becomes 20 percent without any explicit
refresh call or change notification). -/
theorem claim_C4_counterexample :
    (scan ⟨true, "/up", ["a"], fun _ => Device.mk true true "a" 20 0 0⟩
        [("a", Device.mk true true "a" 10 0 0)]).1
      = [("a", Device.mk true true "a" 20 0 0)] ∧
    Device.mk true true "a" 10 0 0 ≠ Device.mk true true "a" 20 0 0 := by
  constructor
  · rfl
  · intro h
    have := congrArg Device.percentage h
    norm_num at this

/-- C4 amended: `PowerKit::scan` creates a Device only for each
backend-reported id not already tracked (afterwards an id is tracked iff
it was tracked before or the backend reports it, and distinct ids stay
distinct), emits the updated event unconditionally — but then refreshes
the cached attributes of every tracked Device, pre-existing ones
included, through `UpdateDevices()`.  Only `Power::scanDevices`
(power.cpp) leaves existing Devices untouched, as the claim describes. -/
theorem claim_C4_amended :
    (∀ (env : RegistryEnv) (devs : List (String × Device)) (p : String),
      mapContains (scan env devs).1 p = (mapContains devs p || env.backendList.contains p)) ∧
    (∀ (env : RegistryEnv) (devs : List (String × Device)),
      (devs.map (fun e => e.1)).Nodup → (((scan env devs).1).map (fun e => e.1)).Nodup) ∧
    (∀ (env : RegistryEnv) (devs : List (String × Device)) (e : String × Device),
      e ∈ (scan env devs).1 → e.2 = env.fresh e.1) ∧
    (∀ (env : RegistryEnv) (devs : List (String × Device)),
      (scan env devs).2 = [RegEvent.UpdatedDevices]) ∧
    (∀ (env : RegistryEnv) (devs : List (String × Device)),
      ∃ rest, (Power.scanDevices env devs).1 = devs ++ rest ∧
        (Power.scanDevices env devs).2 = true) :=
  ⟨scan_contains,
   fun env devs h => scan_keys_nodup env devs h,
   fun env devs e he => scan_attrs env devs e he,
   fun _ _ => rfl,
   fun env devs => by
    obtain ⟨rest, hrest⟩ := scanFold_append env env.backendList devs
    exact ⟨rest, hrest, rfl⟩⟩

/-- C4 amended, witness at a one-device registry. -/
theorem claim_C4_amended_witness :
    ((((scan ⟨true, "/up", ["a"], fun _ => Device.mk true true "a" 20 0 0⟩
        [("a", Device.mk true true "a" 10 0 0)]).1).map (fun e => e.1)).Nodup) ∧
    (("a", Device.mk true true "a" 20 0 0).2
      = (⟨true, "/up", ["a"], fun _ => Device.mk true true "a" 20 0 0⟩ : RegistryEnv).fresh
          ("a", Device.mk true true "a" 20 0 0).1) :=
  ⟨claim_C4_amended.2.1 ⟨true, "/up", ["a"], fun _ => Device.mk true true "a" 20 0 0⟩
      [("a", Device.mk true true "a" 10 0 0)] (by simp),
   claim_C4_amended.2.2.1 ⟨true, "/up", ["a"], fun _ => Device.mk true true "a" 20 0 0⟩
      [("a", Device.mk true true "a" 10 0 0)] ("a", Device.mk true true "a" 20 0 0)
      (by exact List.mem_singleton.mpr rfl)⟩

/-- C5 counterexample: a stale removal signal (the device is tracked and
the backend still lists it).  The handler returns early: the device stays
tracked as claimed, but NO `scan()` follows — not even the unconditional
updated event of a scan is emitted, refuting the always-followed-by-scan
part. -/
theorem claim_C5_counterexample :
    deviceRemoved ⟨true, "/up", ["d"], fun _ => Device.mk true true "d" 10 0 0⟩
        [("d", Device.mk true true "d" 10 0 0)] "d"
      = ([("d", Device.mk true true "d" 10 0 0)], []) ∧
    RegEvent.UpdatedDevices ∉
      (deviceRemoved ⟨true, "/up", ["d"], fun _ => Device.mk true true "d" 10 0 0⟩
        [("d", Device.mk true true "d" 10 0 0)] "d").2 := by
  refine ⟨rfl, ?_⟩
  rw [show (deviceRemoved ⟨true, "/up", ["d"], fun _ => Device.mk true true "d" 10 0 0⟩
        [("d", Device.mk true true "d" 10 0 0)] "d").2 = [] from rfl]
  simp

/-- C5 amended: under the job-path filter and with the backend reachable,
a removal notification for a tracked id still in the backend list is a
strict no-op (device kept, nothing emitted, and — unlike the claim — no
`scan()` follows, the handler returns early); for a tracked id no longer
listed the Device is destroyed, its removal announced and `scan()` runs;
for an untracked id the handler just runs `scan()`. -/
theorem claim_C5_amended :
    ∀ (env : RegistryEnv) (devs : List (String × Device)) (p : String),
      env.upowerValid = true → isJobPath env p = false →
      ((mapContains devs p = true → env.backendList.contains p = true →
          deviceRemoved env devs p = (devs, [])) ∧
       (mapContains devs p = true → env.backendList.contains p = false →
          mapContains (deviceRemoved env devs p).1 p = false ∧
          (deviceRemoved env devs p).2
            = [RegEvent.DeviceWasRemoved p, RegEvent.UpdatedDevices]) ∧
       (mapContains devs p = false →
          deviceRemoved env devs p = scan env devs ∧
          (deviceRemoved env devs p).2 = [RegEvent.UpdatedDevices])) := by
  intro env devs p h1 h2
  refine ⟨?_, ?_, ?_⟩
  · intro hc hb
    have hb' : p ∈ env.backendList := by simpa using hb
    simp [deviceRemoved, h1, h2, hc, hb']
  · intro hc hb
    have hb' : p ∉ env.backendList := by simpa using hb
    constructor
    · simp only [deviceRemoved, h1, Bool.not_true, Bool.false_eq_true, if_false, h2, hc,
        if_true, hb]
      rw [scan_contains]
      simp [mapContains_mapTake_self, hb, hb']
    · simp [deviceRemoved, h1, h2, hc, hb', scan]
  · intro hc
    constructor
    · simp [deviceRemoved, h1, h2, hc]
    · simp [deviceRemoved, h1, h2, hc, scan]

/-- C5 amended, witness covering the stale, genuine-removal and untracked
cases on concrete registries. -/
theorem claim_C5_amended_witness :
    (deviceRemoved ⟨true, "/up", ["d"], fun _ => Device.mk true true "d" 10 0 0⟩
        [("d", Device.mk true true "d" 10 0 0)] "d"
      = ([("d", Device.mk true true "d" 10 0 0)], [])) ∧
    (mapContains (deviceRemoved ⟨true, "/up", [], fun _ => Device.mk true true "d" 10 0 0⟩
        [("d", Device.mk true true "d" 10 0 0)] "d").1 "d" = false ∧
     (deviceRemoved ⟨true, "/up", [], fun _ => Device.mk true true "d" 10 0 0⟩
        [("d", Device.mk true true "d" 10 0 0)] "d").2
      = [RegEvent.DeviceWasRemoved "d", RegEvent.UpdatedDevices]) ∧
    ((deviceRemoved ⟨true, "/up", ["d"], fun _ => Device.mk true true "d" 10 0 0⟩ [] "d").2
      = [RegEvent.UpdatedDevices]) :=
  ⟨(claim_C5_amended ⟨true, "/up", ["d"], fun _ => Device.mk true true "d" 10 0 0⟩
      [("d", Device.mk true true "d" 10 0 0)] "d" rfl rfl).1 rfl rfl,
   (claim_C5_amended ⟨true, "/up", [], fun _ => Device.mk true true "d" 10 0 0⟩
      [("d", Device.mk true true "d" 10 0 0)] "d" rfl rfl).2.1 rfl rfl,
   ((claim_C5_amended ⟨true, "/up", ["d"], fun _ => Device.mk true true "d" 10 0 0⟩
      [] "d" rfl rfl).2.2 rfl).2⟩

/-- C10: with the upower handle valid and a non-job path, `deviceAdded`
emits `DeviceWasAdded(path)` followed by the scan event for EVERY device
map and backend list (so repeated notifications for an already-tracked
path re-announce it), it is a strict no-op when the handle is invalid or
the path is a job path (as is `deviceRemoved`), and `DeviceWasRemoved` is
emitted exactly when the tracked device is actually destroyed (tracked
and no longer listed by the backend). -/
theorem claim_C10_announcements :
    (∀ (env : RegistryEnv) (devs : List (String × Device)) (p : String),
      env.upowerValid = true → isJobPath env p = false →
      (deviceAdded env devs p).2 = [RegEvent.DeviceWasAdded p, RegEvent.UpdatedDevices]) ∧
    (∀ (env : RegistryEnv) (devs : List (String × Device)) (p : String),
      env.upowerValid = false →
      deviceAdded env devs p = (devs, []) ∧ deviceRemoved env devs p = (devs, [])) ∧
    (∀ (env : RegistryEnv) (devs : List (String × Device)) (p : String),
      env.upowerValid = true → isJobPath env p = true →
      deviceAdded env devs p = (devs, []) ∧ deviceRemoved env devs p = (devs, [])) ∧
    (∀ (env : RegistryEnv) (devs : List (String × Device)) (p : String),
      env.upowerValid = true → isJobPath env p = false →
      (RegEvent.DeviceWasRemoved p ∈ (deviceRemoved env devs p).2
        ↔ (mapContains devs p = true ∧ env.backendList.contains p = false))) := by
  refine ⟨?_, ?_, ?_, ?_⟩
  · intro env devs p h1 h2
    simp [deviceAdded, h1, h2, scan]
  · intro env devs p h1
    exact ⟨by simp [deviceAdded, h1], by simp [deviceRemoved, h1]⟩
  · intro env devs p h1 h2
    exact ⟨by simp [deviceAdded, h1, h2], by simp [deviceRemoved, h1, h2]⟩
  · intro env devs p h1 h2
    by_cases hc : mapContains devs p = true
    · by_cases hb : env.backendList.contains p = true
      · have hb' : p ∈ env.backendList := by simpa using hb
        simp [deviceRemoved, h1, h2, hc, hb', hb]
      · simp only [Bool.not_eq_true] at hb
        have hb' : p ∉ env.backendList := by simpa using hb
        simp [deviceRemoved, h1, h2, hc, hb', hb]
    · simp only [Bool.not_eq_true] at hc
      simp [deviceRemoved, h1, h2, hc, scan]

/-- C10, witness: a duplicate add for an already-tracked path still
announces it; invalid-handle and job-path notifications are no-ops; a
stale removal announces nothing. -/
theorem claim_C10_announcements_witness :
    ((deviceAdded ⟨true, "/up", ["d"], fun _ => Device.mk true true "d" 10 0 0⟩
        [("d", Device.mk true true "d" 10 0 0)] "d").2
      = [RegEvent.DeviceWasAdded "d", RegEvent.UpdatedDevices]) ∧
    (deviceAdded ⟨false, "/up", [], fun _ => Device.mk true true "d" 10 0 0⟩ [] "d"
      = ([], [])) ∧
    (deviceAdded ⟨true, "/up", [], fun _ => Device.mk true true "d" 10 0 0⟩ [] "/up/jobs/j1"
      = ([], [])) ∧
    (RegEvent.DeviceWasRemoved "d" ∈
        (deviceRemoved ⟨true, "/up", ["d"], fun _ => Device.mk true true "d" 10 0 0⟩
          [("d", Device.mk true true "d" 10 0 0)] "d").2
      ↔ (mapContains [("d", Device.mk true true "d" 10 0 0)] "d" = true ∧
         (["d"].contains "d") = false)) :=
  ⟨claim_C10_announcements.1 ⟨true, "/up", ["d"], fun _ => Device.mk true true "d" 10 0 0⟩
      [("d", Device.mk true true "d" 10 0 0)] "d" rfl rfl,
   (claim_C10_announcements.2.1 ⟨false, "/up", [], fun _ => Device.mk true true "d" 10 0 0⟩
      [] "d" rfl).1,
   (claim_C10_announcements.2.2.1 ⟨true, "/up", [], fun _ => Device.mk true true "d" 10 0 0⟩
      [] "/up/jobs/j1" rfl rfl).1,
   claim_C10_announcements.2.2.2 ⟨true, "/up", ["d"], fun _ => Device.mk true true "d" 10 0 0⟩
      [("d", Device.mk true true "d" 10 0 0)] "d" rfl rfl⟩

end PowerKit
